import Mathlib

/-!
Verification of the Browser Test Session Orchestrator of `vscode-test-web`
(`src/index.ts`) against its natural-language specification.

The development shallowly embeds the claim-relevant parts of `src/index.ts`:

* the `Options` record and the `IConfig` session configuration built by
  `runTests` (lines 137-146) and `open` (lines 189-198);
* the browser launch arguments computed by `openBrowser` (lines 220-228);
* the statement order of `runTests` (lines 137-176), `open` (lines 189-215)
  and `openBrowser` (lines 220-267) as a list of performed session events,
  with an injectable failure at the awaited external calls;
* the `codeAutomationExit` handler installed by `runTests` (lines 162-174),
  together with the at-most-once settle semantics of the JavaScript promise
  it resolves;
* the page-open counter and auto-close listener of `openBrowser`
  (lines 238-248);
* the `dispose` closure returned by `open` (lines 208-213).

External collaborators (`runServer`, `downloadAndUnzipVSCode`, playwright)
are modelled only through their call order, their failure possibility and
the close contracts the spec assigns them (`handle.close()` is idempotent,
spec section 6).
-/

namespace VSCodeTestWeb

/-- Browser engines, `export type BrowserType` (src/index.ts line 16). -/
inductive BrowserType
  | chromium
  | firefox
  | webkit
deriving DecidableEq, Repr

/-- The `Options` interface (src/index.ts lines 19-126).  Optional fields are
`Option`; `undefined` is `none`.  The build-related fields (`quality`,
`version`, `vsCodeDevPath`) feed only the external build resolver. -/
structure Options where
  browserType : BrowserType
  extensionDevelopmentPath : Option String := none
  extensionTestsPath : Option String := none
  quality : Option String := none
  version : Option String := none
  devTools : Option Bool := none
  headless : Option Bool := none
  hideServerLog : Option Bool := none
  waitForDebugger : Option Nat := none
  folderPath : Option String := none
  folderUri : Option String := none
  permissions : Option (List String) := none
  extensionPaths : Option (List String) := none
  vsCodeDevPath : Option String := none
  verbose : Option Bool := none
  port : Option Nat := none
  host : Option String := none
deriving DecidableEq, Repr

/-- The server configuration `IConfig` as both entry points build it
(src/index.ts lines 138-146 and 190-198).  The `build` field is produced by
the external build resolver (`getBuild`) and is omitted here. -/
structure IConfig where
  extensionDevelopmentPath : Option String
  extensionTestsPath : Option String
  folderUri : Option String
  folderMountPath : Option String
  hideServerLog : Bool
  extensionPaths : Option (List String)
deriving DecidableEq, Repr

/-- The `config` object of `runTests` (src/index.ts lines 138-146):
`hideServerLog: options.hideServerLog ?? true` is `Option.getD`. -/
def runTestsConfig (options : Options) : IConfig :=
  { extensionDevelopmentPath := options.extensionDevelopmentPath
    extensionTestsPath := options.extensionTestsPath
    folderUri := options.folderUri
    folderMountPath := options.folderPath
    hideServerLog := options.hideServerLog.getD true
    extensionPaths := options.extensionPaths }

/-- The `config` object of `open` (src/index.ts lines 190-198), built by the
same expressions as in `runTests`. -/
def openConfig (options : Options) : IConfig :=
  { extensionDevelopmentPath := options.extensionDevelopmentPath
    extensionTestsPath := options.extensionTestsPath
    folderUri := options.folderUri
    folderMountPath := options.folderPath
    hideServerLog := options.hideServerLog.getD true
    extensionPaths := options.extensionPaths }

/-- JavaScript truthiness of an optional number: `undefined` and `0` are
falsy (`if (options.waitForDebugger)`, src/index.ts lines 226 and 252). -/
def jsTruthyNat : Option Nat → Bool
  | some n => n != 0
  | none => false

/-- JavaScript truthiness of an optional boolean (`if (options.verbose)`,
src/index.ts line 255). -/
def jsTruthyBool : Option Bool → Bool
  | some b => b
  | none => false

/-- The host platform, `process.platform` (src/index.ts line 222). -/
inductive Platform
  | linux
  | darwin
  | win32
deriving DecidableEq, Repr

/-- The launch argument list computed by `openBrowser`
(src/index.ts lines 221-228): starts empty, pushes `--no-sandbox` when the
platform is linux and the engine chromium, then pushes the remote-debugging
flag when `waitForDebugger` is truthy. -/
def openBrowserArgs (platform : Platform) (options : Options) : List String :=
  let args : List String := []
  let args :=
    if platform = Platform.linux ∧ options.browserType = BrowserType.chromium then
      args ++ ["--no-sandbox"]
    else args
  if jsTruthyNat options.waitForDebugger then
    args ++ ["--remote-debugging-port=" ++ toString (options.waitForDebugger.getD 0)]
  else args

/-- The headless default of `openBrowser` (src/index.ts line 230):
`options.headless ?? options.extensionTestsPath !== undefined`. -/
def openBrowserHeadless (options : Options) : Bool :=
  options.headless.getD options.extensionTestsPath.isSome

/-! ### Statement-order traces of the two entry points

Each awaited or registered action of `runTests`, `open` and `openBrowser`
becomes one event; the trace records the actions in the order the source
performs them.  The close events never occur during startup: the source has
no catch/finally around the startup sequence. -/

/-- One performed action of a session's startup. -/
inductive SessionEvent
  | serverStart
  | browserLaunch
  | contextCreate
  | grantPermissions
  | registerPageListener
  | firstPage
  | waitDebuggerReady
  | registerConsoleListener
  | setViewport
  | navigate
  | registerCloseListener
  | exposeLog
  | exposeExit
  | serverClose
  | browserClose
  | contextClose
deriving DecidableEq, Repr

/-- The actions `openBrowser` performs before `page.goto(endpoint)`
(src/index.ts lines 232-262): launch, `newContext`, the conditional
permission grant, the page listener, obtaining the first page, the
conditional debugger wait and console listener, `setViewportSize`. -/
def openBrowserPreNav (options : Options) : List SessionEvent :=
  [SessionEvent.browserLaunch, SessionEvent.contextCreate]
  ++ (if options.permissions.isSome then [SessionEvent.grantPermissions] else [])
  ++ [SessionEvent.registerPageListener, SessionEvent.firstPage]
  ++ (if jsTruthyNat options.waitForDebugger then [SessionEvent.waitDebuggerReady] else [])
  ++ (if jsTruthyBool options.verbose then [SessionEvent.registerConsoleListener] else [])
  ++ [SessionEvent.setViewport]

/-- Which awaited external step fails, if any.  The source performs no
retries, so one flag per step suffices. -/
structure FailurePlan where
  serverFails : Bool
  browserLaunchFails : Bool
  navigationFails : Bool
deriving DecidableEq, Repr

/-- Fatal startup errors (spec section 7). -/
inductive StartupError
  | serverStartError
  | browserLaunchError
  | navigationError
deriving DecidableEq, Repr

/-- `openBrowser` (src/index.ts lines 220-267): a thrown step rejects with
the events performed so far; on success the trace ends with `page.goto`. -/
def openBrowserRun (fp : FailurePlan) (options : Options) :
    Except (StartupError × List SessionEvent) (List SessionEvent) :=
  if fp.browserLaunchFails then Except.error (StartupError.browserLaunchError, [])
  else if fp.navigationFails then
    Except.error (StartupError.navigationError, openBrowserPreNav options)
  else Except.ok (openBrowserPreNav options ++ [SessionEvent.navigate])

/-- How a call of an entry point ends: normally, by a propagated rejection,
or - for a failure inside the `new Promise(async (s, e) => ...)` executor of
`runTests` (src/index.ts line 153) - with the returned promise never
settling (the rejection is unhandled and `s`/`e` are never called). -/
inductive RunOutcome
  | ok (trace : List SessionEvent)
  | thrown (err : StartupError) (trace : List SessionEvent)
  | hung (err : StartupError) (trace : List SessionEvent)
deriving DecidableEq, Repr

/-- The events an outcome performed. -/
def RunOutcome.trace : RunOutcome → List SessionEvent
  | RunOutcome.ok t => t
  | RunOutcome.thrown _ t => t
  | RunOutcome.hung _ t => t

/-- The statement order of `runTests` (src/index.ts lines 137-176):
`runServer` is awaited first (line 151, outside the promise executor, so its
rejection propagates); then, inside the executor, `openBrowser` - which ends
with the navigation - then `context.once('close', ...)` and the two
`exposeFunction` calls.  A failure inside the executor leaves the returned
promise pending forever. -/
def runTestsRun (fp : FailurePlan) (options : Options) : RunOutcome :=
  if fp.serverFails then RunOutcome.thrown StartupError.serverStartError []
  else
    match openBrowserRun fp options with
    | Except.error (e, t) => RunOutcome.hung e (SessionEvent.serverStart :: t)
    | Except.ok t =>
        RunOutcome.ok (SessionEvent.serverStart :: t
          ++ [SessionEvent.registerCloseListener, SessionEvent.exposeLog,
              SessionEvent.exposeExit])

/-- The statement order of `open` (src/index.ts lines 189-215): `runServer`
awaited, then `openBrowser`, then `context.once('close', ...)`; every
rejection propagates to the caller (plain awaits in an async function). -/
def openEntryRun (fp : FailurePlan) (options : Options) : RunOutcome :=
  if fp.serverFails then RunOutcome.thrown StartupError.serverStartError []
  else
    match openBrowserRun fp options with
    | Except.error (e, t) => RunOutcome.thrown e (SessionEvent.serverStart :: t)
    | Except.ok t =>
        RunOutcome.ok (SessionEvent.serverStart :: t ++ [SessionEvent.registerCloseListener])

/-- No step fails. -/
def noFailures : FailurePlan := { serverFails := false, browserLaunchFails := false, navigationFails := false }

/-- A concrete options value: chromium with every optional field unset. -/
def sampleOptions : Options := { browserType := BrowserType.chromium }

/-- The ordering property the spec asserts, as stated: both bridge functions
are installed among the events strictly before the first navigation. -/
def bridgeInstalledBeforeNav (t : List SessionEvent) : Bool :=
  let pre := t.takeWhile (fun e => e != SessionEvent.navigate)
  pre.contains SessionEvent.exposeLog && pre.contains SessionEvent.exposeExit

/-! ### The exit bridge and the completion promise -/

/-- A session's completion outcome: `s()` or `e(new Error('Test failed'))`
(src/index.ts lines 169-173). -/
inductive Outcome
  | success
  | failure (message : String)
deriving DecidableEq, Repr

/-- JavaScript promise settle semantics: a pending promise takes the
outcome; calling resolve or reject on a settled promise is a no-op. -/
def settle : Option Outcome → Outcome → Option Outcome
  | none, o => some o
  | some o0, _ => some o0

/-- The host-side state the `codeAutomationExit` handler touches: the
browser, the server, the promise of `runTests` and the console-error log. -/
structure SessionState where
  browserClosed : Bool
  serverClosed : Bool
  promise : Option Outcome
  loggedErrors : List String
deriving DecidableEq, Repr

/-- The session state before any exit call. -/
def freshSessionState : SessionState :=
  { browserClosed := false, serverClosed := false, promise := none, loggedErrors := [] }

/-- One invocation of the `codeAutomationExit` handler (src/index.ts lines
162-174): `try { await context.browser()?.close() } catch (error)
{ console.error(...) }`, then `server.close()`, then `s()` when `code === 0`
and `e(new Error('Test failed'))` otherwise.  `browserCloseError` is the
rejection of the browser-close attempt, `none` when the close succeeds; the
handler's total return type records that no error leaves it. -/
def codeAutomationExit (browserCloseError : Option String) (code : Int)
    (st : SessionState) : SessionState :=
  let st1 :=
    match browserCloseError with
    | none => { st with browserClosed := true }
    | some msg =>
        { st with loggedErrors := st.loggedErrors ++ ["Error when closing browser: " ++ msg] }
  let st2 := { st1 with serverClosed := true }
  { st2 with
    promise := settle st2.promise
      (if code = 0 then Outcome.success else Outcome.failure "Test failed") }

/-- The settled promise of `runTests` after a single successful-close exit
call with the given code, from a fresh session. -/
def runTestsSettled (code : Int) : Option Outcome :=
  (codeAutomationExit none code freshSessionState).promise

/-! ### The page-open counter of `openBrowser` -/

/-- A page lifecycle event on the browser context (the `'page'` event of the
context and the `'close'` event of a page, src/index.ts lines 240-242). -/
inductive PageEvent
  | pageOpen
  | pageClose
deriving DecidableEq, Repr

/-- The closure state of the page listener: the `openPages` counter and how
many times `browser.close()` has been invoked. -/
structure PageCounterState where
  openPages : Int
  browserCloseCalls : Nat
deriving DecidableEq, Repr

/-- The listener bodies (src/index.ts lines 240-248): `openPages++` on a
page-open; on a page-close `openPages--` and, if the counter is now zero,
`browser.close()`. -/
def pageListenerStep (st : PageCounterState) (e : PageEvent) : PageCounterState :=
  match e with
  | PageEvent.pageOpen => { st with openPages := st.openPages + 1 }
  | PageEvent.pageClose =>
      let n := st.openPages - 1
      { openPages := n
        browserCloseCalls :=
          if n = 0 then st.browserCloseCalls + 1 else st.browserCloseCalls }

/-- The listener state after a sequence of page events, starting from the
zero counter installed at context creation. -/
def runPageEvents (t : List PageEvent) : PageCounterState :=
  List.foldl pageListenerStep (PageCounterState.mk 0 0) t

/-- Realizability of a page-event sequence on one context, given a pending
open count `k`: a page-close only ever fires for a page that opened
(`page.once('close', ...)` is registered per created page), and once the
counter reaches zero the browser has been told to close, so no further page
events arrive (the claim's proviso of no earlier exit signal or disposal). -/
def pageEventsWellFormed : Int → List PageEvent → Bool
  | _, [] => true
  | k, PageEvent.pageOpen :: rest => pageEventsWellFormed (k + 1) rest
  | k, PageEvent.pageClose :: rest =>
      decide (1 ≤ k) &&
        (if k - 1 = 0 then rest.isEmpty else pageEventsWellFormed (k - 1) rest)

/-! ### The dispose handle of `open` -/

/-- The resources the `dispose` closure of `open` touches. -/
structure InteractiveSession where
  serverOpen : Bool
  browserOpen : Bool
deriving DecidableEq, Repr

/-- `server.close()`: idempotent by the server contract (spec section 6). -/
def serverCloseStep (s : InteractiveSession) : InteractiveSession :=
  { s with serverOpen := false }

/-- `context.browser()?.close()`: closing an already-closed playwright
browser is a no-op. -/
def browserCloseStep (s : InteractiveSession) : InteractiveSession :=
  { s with browserOpen := false }

/-- The `dispose` closure returned by `open` (src/index.ts lines 209-212):
`server.close(); context.browser()?.close()`.  Total: no call throws. -/
def dispose (s : InteractiveSession) : InteractiveSession :=
  browserCloseStep (serverCloseStep s)

/-! ## Theorems -/

/-- Helper: the remote-debugging flag is never the sandbox flag (their
lengths differ). -/
theorem remote_debug_arg_ne_no_sandbox (s : String) :
    ("--remote-debugging-port=" ++ s) ≠ "--no-sandbox" := by
  intro h
  have hl := congrArg String.length h
  rw [String.length_append] at hl
  have h1 : ("--remote-debugging-port=" : String).length = 24 := rfl
  have h2 : ("--no-sandbox" : String).length = 12 := rfl
  rw [h1, h2] at hl
  omega

/-- Helper: every event `openBrowser` performs before navigation is one of
the eight startup actions - in particular not an expose, navigate or close
event. -/
theorem mem_openBrowserPreNav_cases (options : Options) (x : SessionEvent)
    (hx : x ∈ openBrowserPreNav options) :
    x = SessionEvent.browserLaunch ∨ x = SessionEvent.contextCreate
    ∨ x = SessionEvent.grantPermissions ∨ x = SessionEvent.registerPageListener
    ∨ x = SessionEvent.firstPage ∨ x = SessionEvent.waitDebuggerReady
    ∨ x = SessionEvent.registerConsoleListener ∨ x = SessionEvent.setViewport := by
  cases hp : options.permissions.isSome <;>
    cases hw : jsTruthyNat options.waitForDebugger <;>
      cases hv : jsTruthyBool options.verbose <;>
        simp [openBrowserPreNav, hp, hw, hv] at hx <;> tauto

/-- Helper: the expose, navigate and close events do not occur among the
events performed up to (excluding) the navigation. -/
theorem teardown_events_not_in_startup (options : Options) (x : SessionEvent)
    (hx : x = SessionEvent.exposeLog ∨ x = SessionEvent.exposeExit
      ∨ x = SessionEvent.navigate ∨ x = SessionEvent.serverClose
      ∨ x = SessionEvent.browserClose ∨ x = SessionEvent.contextClose) :
    x ∉ SessionEvent.serverStart :: openBrowserPreNav options := by
  intro hmem
  rcases List.mem_cons.1 hmem with h | h
  · rcases hx with rfl | rfl | rfl | rfl | rfl | rfl <;> exact absurd h (by decide)
  · rcases mem_openBrowserPreNav_cases options x h with h' | h' | h' | h' | h' | h' | h' | h' <;>
      rcases hx with rfl | rfl | rfl | rfl | rfl | rfl <;> exact absurd h' (by decide)

/-- C1 (counterexample): the claim says a nonzero exit code `n` makes
`runTests` fail with a `TestFailure` carrying `n`.  In the code the
rejection is the constant `new Error('Test failed')` (src/index.ts line
172): the settled rejections for codes 1 and 2 are the same value, so no
reading of the rejection can recover the exit code. -/
theorem c1_counterexample :
    ¬ ∃ exitCodeOf : Outcome → Int,
        (∀ o, runTestsSettled 1 = some o → exitCodeOf o = 1)
        ∧ (∀ o, runTestsSettled 2 = some o → exitCodeOf o = 2) := by
  rintro ⟨f, h1, h2⟩
  have e1 := h1 (Outcome.failure "Test failed") rfl
  have e2 := h2 (Outcome.failure "Test failed") rfl
  rw [e1] at e2
  exact absurd e2 (by decide)

/-- C1 (amended): with a test path configured, `runTests` resolves
successfully exactly when the exit call carries code 0, and every nonzero
code rejects with the fixed error `'Test failed'`, which carries no exit
code. -/
theorem c1_exit_code_outcome (code : Int) :
    (runTestsSettled code = some Outcome.success ↔ code = 0)
    ∧ (code ≠ 0 → runTestsSettled code = some (Outcome.failure "Test failed")) := by
  constructor
  · constructor
    · intro h
      by_contra hc
      simp [runTestsSettled, codeAutomationExit, settle, freshSessionState, hc] at h
    · intro h
      subst h
      rfl
  · intro hc
    simp [runTestsSettled, codeAutomationExit, settle, freshSessionState, hc]

/-- C2 (counterexample): in `runTests` with no failures, the two bridge
functions are NOT installed before the first navigation - the trace of
performed events has no expose event before `page.goto`
(`openBrowser` navigates at line 264, the `exposeFunction` calls run
afterwards at lines 158 and 162). -/
theorem c2_counterexample :
    bridgeInstalledBeforeNav (RunOutcome.trace (runTestsRun noFailures sampleOptions)) = false := by
  decide

/-- C2 (amended): in every session driven by `runTests`, navigation of the
first page to the server endpoint completes before installation of either
bridge function begins: the successful trace is some prefix containing no
expose event, then the navigation, then the close-listener registration and
the two `exposeFunction` calls. -/
theorem c2_navigation_precedes_bridge_install (options : Options) :
    ∃ pre, runTestsRun noFailures options
        = RunOutcome.ok (pre ++ [SessionEvent.navigate, SessionEvent.registerCloseListener,
            SessionEvent.exposeLog, SessionEvent.exposeExit])
      ∧ SessionEvent.exposeLog ∉ pre ∧ SessionEvent.exposeExit ∉ pre
      ∧ SessionEvent.navigate ∉ pre := by
  refine ⟨SessionEvent.serverStart :: openBrowserPreNav options, ?_, ?_, ?_, ?_⟩
  · simp [runTestsRun, openBrowserRun, noFailures]
  · exact teardown_events_not_in_startup options _ (by tauto)
  · exact teardown_events_not_in_startup options _ (by tauto)
  · exact teardown_events_not_in_startup options _ (by tauto)

/-- C3: the completion outcome is resolved at most once.  The first exit
call from a pending promise settles it with the outcome determined by its
code; any subsequent exit call - with any code and any browser-close
behaviour - leaves the settled outcome unchanged (JavaScript promise
resolve/reject are no-ops once settled). -/
theorem c3_at_most_once_resolution (bc1 bc2 : Option String) (c1 c2 : Int)
    (st : SessionState) (hp : st.promise = none) :
    (codeAutomationExit bc1 c1 st).promise
        = some (if c1 = 0 then Outcome.success else Outcome.failure "Test failed")
    ∧ (codeAutomationExit bc2 c2 (codeAutomationExit bc1 c1 st)).promise
        = (codeAutomationExit bc1 c1 st).promise := by
  cases bc1 <;> cases bc2 <;> simp [codeAutomationExit, settle, hp]

/-- C3 (witness): a second exit call with code 5 after a first with code 0
leaves the settled outcome unchanged. -/
theorem c3_witness :
    (codeAutomationExit none 5 (codeAutomationExit none 0 freshSessionState)).promise
      = (codeAutomationExit none 0 freshSessionState).promise :=
  (c3_at_most_once_resolution none none 0 5 freshSessionState rfl).2

/-- Helper: the generalized invariant of the page listener, for any
pending-open count and any number of close calls already made. -/
theorem pageEvents_run_spec (t : List PageEvent) : ∀ (k : Int) (c : Nat),
    pageEventsWellFormed k t = true → 0 ≤ k →
    (List.foldl pageListenerStep (PageCounterState.mk k c) t).browserCloseCalls ≤ c + 1
    ∧ ((List.foldl pageListenerStep (PageCounterState.mk k c) t).browserCloseCalls = c + 1 ↔
        (t ≠ [] ∧ (List.foldl pageListenerStep (PageCounterState.mk k c) t).openPages = 0))
    ∧ (0 < (List.foldl pageListenerStep (PageCounterState.mk k c) t).openPages →
        (List.foldl pageListenerStep (PageCounterState.mk k c) t).browserCloseCalls = c)
    ∧ 0 ≤ (List.foldl pageListenerStep (PageCounterState.mk k c) t).openPages := by
  induction t with
  | nil =>
    intro k c _ hk
    refine ⟨Nat.le_succ c, ?_, ?_, hk⟩
    · show c = c + 1 ↔ (([] : List PageEvent) ≠ [] ∧ k = 0)
      constructor
      · intro h
        omega
      · rintro ⟨h, -⟩
        exact absurd rfl h
    · show 0 < k → c = c
      exact fun _ => rfl
  | cons e rest ih =>
    intro k c hwf hk
    cases e with
    | pageOpen =>
      have hwf' : pageEventsWellFormed (k + 1) rest = true := by
        simpa [pageEventsWellFormed] using hwf
      have H := ih (k + 1) c hwf' (by omega)
      have hstep : pageListenerStep (PageCounterState.mk k c) PageEvent.pageOpen
          = PageCounterState.mk (k + 1) c := rfl
      rw [List.foldl_cons, hstep]
      refine ⟨H.1, ?_, H.2.2.1, H.2.2.2⟩
      constructor
      · intro h
        exact ⟨by simp, (H.2.1.mp h).2⟩
      · rintro ⟨-, h0⟩
        refine H.2.1.mpr ⟨?_, h0⟩
        intro hre
        rw [hre] at h0
        have h0' : k + 1 = 0 := h0
        omega
    | pageClose =>
      have hwf2 : 1 ≤ k ∧
          (if k - 1 = 0 then rest.isEmpty
            else pageEventsWellFormed (k - 1) rest) = true := by
        simpa [pageEventsWellFormed, Bool.and_eq_true, decide_eq_true_eq] using hwf
      obtain ⟨h1, h2⟩ := hwf2
      by_cases hz : k - 1 = 0
      · rw [if_pos hz] at h2
        have hre : rest = [] := by
          cases rest with
          | nil => rfl
          | cons r rs => simp [List.isEmpty] at h2
        subst hre
        refine ⟨?_, ?_, ?_, ?_⟩
        · show (if k - 1 = 0 then c + 1 else c) ≤ c + 1
          rw [if_pos hz]
        · show (if k - 1 = 0 then c + 1 else c) = c + 1
            ↔ ([PageEvent.pageClose] ≠ [] ∧ k - 1 = 0)
          rw [if_pos hz]
          simp [hz]
        · show 0 < k - 1 → (if k - 1 = 0 then c + 1 else c) = c
          intro h
          exact absurd h (by omega)
        · show 0 ≤ k - 1
          omega
      · rw [if_neg hz] at h2
        have H := ih (k - 1) c h2 (by omega)
        have hstep : pageListenerStep (PageCounterState.mk k c) PageEvent.pageClose
            = PageCounterState.mk (k - 1) c := by
          simp [pageListenerStep, hz]
        rw [List.foldl_cons, hstep]
        refine ⟨H.1, ?_, H.2.2.1, H.2.2.2⟩
        constructor
        · intro h
          exact ⟨by simp, (H.2.1.mp h).2⟩
        · rintro ⟨-, h0⟩
          refine H.2.1.mpr ⟨?_, h0⟩
          intro hre
          rw [hre] at h0
          have h0' : k - 1 = 0 := h0
          exact hz h0'

/-- C4: along every realizable page-event sequence of one context, the
counter is incremented on each page-open and decremented on each
page-close, `browser.close()` is invoked at most once, it is invoked
exactly once precisely when the counter has reached zero, and it is never
invoked while the counter is positive.  Realizability
(`pageEventsWellFormed`) says each close matches an earlier open and no
page events follow the browser close - the claim's proviso of no earlier
exit signal or explicit disposal. -/
theorem c4_page_counter_auto_close (t : List PageEvent)
    (hwf : pageEventsWellFormed 0 t = true) :
    (∀ st : PageCounterState,
        (pageListenerStep st PageEvent.pageOpen).openPages = st.openPages + 1
        ∧ (pageListenerStep st PageEvent.pageClose).openPages = st.openPages - 1)
    ∧ (runPageEvents t).browserCloseCalls ≤ 1
    ∧ ((runPageEvents t).browserCloseCalls = 1
        ↔ (t ≠ [] ∧ (runPageEvents t).openPages = 0))
    ∧ (0 < (runPageEvents t).openPages → (runPageEvents t).browserCloseCalls = 0) := by
  have H := pageEvents_run_spec t 0 0 hwf (le_refl 0)
  exact ⟨fun st => ⟨rfl, rfl⟩, H.1, H.2.1, H.2.2.1⟩

/-- C4 (witness): opening one page and closing it invokes `browser.close()`
exactly once. -/
theorem c4_witness :
    (runPageEvents [PageEvent.pageOpen, PageEvent.pageClose]).browserCloseCalls = 1 :=
  (c4_page_counter_auto_close [PageEvent.pageOpen, PageEvent.pageClose]
    (by decide)).2.2.1.mpr (by decide)

/-- C5 (counterexample): when the browser launch fails in `open`, the error
propagates while the already-started server has not been closed: the
performed events carry no `serverClose` (the source has no catch/finally
around the startup sequence, src/index.ts lines 200-206). -/
theorem c5_counterexample :
    openEntryRun (FailurePlan.mk false true false) sampleOptions
      = RunOutcome.thrown StartupError.browserLaunchError [SessionEvent.serverStart]
    ∧ SessionEvent.serverClose ∉
        RunOutcome.trace (openEntryRun (FailurePlan.mk false true false) sampleOptions)
    ∧ SessionEvent.browserClose ∉
        RunOutcome.trace (openEntryRun (FailurePlan.mk false true false) sampleOptions) := by
  decide

/-- C5 (amended): when a startup step after the server start fails, no
already-opened resource is closed before the failure surfaces: in `open`
the error propagates (without retry) with the server still open, and in
`runTests` the failure happens inside the promise executor, so the returned
promise never settles; in neither entry point is any close performed. -/
theorem c5_startup_failure_no_teardown (fp : FailurePlan) (options : Options)
    (hs : fp.serverFails = false)
    (hfail : fp.browserLaunchFails = true ∨ fp.navigationFails = true) :
    ∃ err tr, openEntryRun fp options = RunOutcome.thrown err tr
      ∧ runTestsRun fp options = RunOutcome.hung err tr
      ∧ SessionEvent.serverStart ∈ tr
      ∧ SessionEvent.serverClose ∉ tr
      ∧ SessionEvent.browserClose ∉ tr
      ∧ SessionEvent.contextClose ∉ tr := by
  by_cases hb : fp.browserLaunchFails = true
  · refine ⟨StartupError.browserLaunchError, [SessionEvent.serverStart], ?_, ?_, ?_, ?_, ?_, ?_⟩ <;>
      simp [openEntryRun, runTestsRun, openBrowserRun, hs, hb]
  · have hn : fp.navigationFails = true := by tauto
    refine ⟨StartupError.navigationError, SessionEvent.serverStart :: openBrowserPreNav options,
      ?_, ?_, ?_, ?_, ?_, ?_⟩
    · simp [openEntryRun, openBrowserRun, hs, hn, hb]
    · simp [runTestsRun, openBrowserRun, hs, hn, hb]
    · exact List.mem_cons_self _ _
    · exact teardown_events_not_in_startup options _ (by tauto)
    · exact teardown_events_not_in_startup options _ (by tauto)
    · exact teardown_events_not_in_startup options _ (by tauto)

/-- C5 (witness): with a failing browser launch, the server is never closed
before the error propagates from `open`. -/
theorem c5_witness :
    SessionEvent.serverClose ∉
      RunOutcome.trace (openEntryRun (FailurePlan.mk false true false) sampleOptions) := by
  obtain ⟨err, tr, h1, -, -, h4, -, -⟩ :=
    c5_startup_failure_no_teardown (FailurePlan.mk false true false) sampleOptions rfl (Or.inl rfl)
  rw [h1]
  exact h4

/-- C6: the `dispose` operation returned by `open` closes both the server
and the browser, is idempotent (a second call is a no-op yielding the same
state), and is equally a safe no-op after the browser has already
auto-closed; being a total function, no call throws. -/
theorem c6_dispose_closes_both_idempotent (s : InteractiveSession) :
    (dispose s).serverOpen = false
    ∧ (dispose s).browserOpen = false
    ∧ dispose (dispose s) = dispose s
    ∧ dispose (browserCloseStep s) = dispose s := by
  simp [dispose, serverCloseStep, browserCloseStep]

/-- C7: whatever the browser-close attempt does, the exit handler closes
the server and leaves the promise resolved, and a failing close is logged
(appended to the console-error log) rather than thrown - the handler is a
total function on session states, so no error leaves it. -/
theorem c7_exit_handler_tolerates_close_failure (browserCloseError : Option String)
    (code : Int) (st : SessionState) :
    (codeAutomationExit browserCloseError code st).serverClosed = true
    ∧ (codeAutomationExit browserCloseError code st).promise.isSome = true
    ∧ (∀ msg, browserCloseError = some msg →
        (codeAutomationExit browserCloseError code st).loggedErrors
          = st.loggedErrors ++ ["Error when closing browser: " ++ msg]) := by
  cases browserCloseError <;> cases hp : st.promise <;>
    simp [codeAutomationExit, settle, hp]

/-- C8: when the server fails to start, both entry points reject with the
server-start error before any browser step: the performed events are empty,
so no browser launch is ever attempted. -/
theorem c8_server_failure_blocks_browser_launch (fp : FailurePlan) (options : Options)
    (hs : fp.serverFails = true) :
    runTestsRun fp options = RunOutcome.thrown StartupError.serverStartError []
    ∧ openEntryRun fp options = RunOutcome.thrown StartupError.serverStartError []
    ∧ SessionEvent.browserLaunch ∉ RunOutcome.trace (runTestsRun fp options)
    ∧ SessionEvent.browserLaunch ∉ RunOutcome.trace (openEntryRun fp options) := by
  simp [runTestsRun, openEntryRun, RunOutcome.trace, hs]

/-- C8 (witness): with a failing server start, `runTests` performs no
browser launch. -/
theorem c8_witness :
    SessionEvent.browserLaunch ∉
      RunOutcome.trace (runTestsRun (FailurePlan.mk true false false) sampleOptions) :=
  (c8_server_failure_blocks_browser_launch (FailurePlan.mk true false false) sampleOptions rfl).2.2.1

/-- C9: the launch arguments contain `--no-sandbox` exactly when the
platform is linux and the requested engine is chromium, for every choice of
the remaining options. -/
theorem c9_no_sandbox_iff_linux_chromium (platform : Platform) (options : Options) :
    "--no-sandbox" ∈ openBrowserArgs platform options
      ↔ (platform = Platform.linux ∧ options.browserType = BrowserType.chromium) := by
  have hne := (remote_debug_arg_ne_no_sandbox (toString (options.waitForDebugger.getD 0))).symm
  unfold openBrowserArgs
  by_cases h1 : platform = Platform.linux ∧ options.browserType = BrowserType.chromium <;>
    cases hw : jsTruthyNat options.waitForDebugger <;>
      simp [h1, hw, hne]

/-- C10: with `hideServerLog` unset, the configuration built by `runTests`
and the one built by `open` both default the field to `true` - the `open`
entry point included, where no `extensionTestsPath` is configured. -/
theorem c10_hide_server_log_defaults_true (options : Options)
    (h : options.hideServerLog = none) :
    (runTestsConfig options).hideServerLog = true
    ∧ (openConfig options).hideServerLog = true := by
  simp [runTestsConfig, openConfig, h]

/-- C10 (witness): for the default options - no test path, `hideServerLog`
unset - the interactive entry point's configuration hides the server log. -/
theorem c10_witness :
    (openConfig sampleOptions).hideServerLog = true :=
  (c10_hide_server_log_defaults_true sampleOptions rfl).2

end VSCodeTestWeb
